import Mathlib

/-!
Verification of the Tai Lam Tunnel traffic-simulation engine.

The development shallowly embeds the core simulator
(`src/simulator/traffic_simulator.py`, `src/simulator/simple_pricing_model.py`,
`src/config.py`) in Lean.  Python floats are modelled by exact rationals
(`ℚ`), occupancy counters by integers (`ℤ`), and the transcendental
`math.exp` of the logit route-choice model by `Real.exp` over `ℝ`.
Randomness (`random.random()`, `numpy` draws) is modelled by explicit
nondeterministic inputs, and a raised `KeyError` by `Except.error`.
-/

namespace TaiLam

/-! ## Configuration (`src/config.py`) -/

/-- `RoadConfig` from `config.py` (the `coordinates` field is display-only
and not consumed by any of the verified functions, so it is omitted). -/
structure RoadConfig where
  name : String
  capacity : ℚ
  length_km : ℚ
  base_travel_time : ℚ
deriving Repr

/-- `TollConfig` from `config.py`. -/
structure TollConfig where
  base_price : ℚ
  min_price : ℚ
  max_price : ℚ
  max_change_percent : ℚ
deriving Repr

/-- `TOLL_CONFIG = TollConfig(base_price=30.0, min_price=18.0, max_price=55.0,
max_change_percent=0.20)`. -/
def TOLL_CONFIG : TollConfig := ⟨30, 18, 55, 1/5⟩

/-- The three fixed road identifiers (keys of the `ROADS` dict, in insertion
order `tai_lam_tunnel`, `tuen_mun_road`, `nt_circular_road`). -/
inductive RoadName where
  | tai_lam_tunnel
  | tuen_mun_road
  | nt_circular_road
deriving DecidableEq, Repr

/-- The `ROADS` table from `config.py`. -/
def ROADS : RoadName → RoadConfig
  | .tai_lam_tunnel => ⟨"Tai Lam Tunnel", 3000, 38/10, 4⟩
  | .tuen_mun_road => ⟨"Tuen Mun Road", 4500, 152/10, 18⟩
  | .nt_circular_road => ⟨"NT Circular Road", 3500, 128/10, 16⟩

/-- One entry of the `SCENARIOS` dict. -/
structure ScenarioConfig where
  demand_multiplier : ℚ
  weather_factor : ℚ
deriving Repr

/-- The `"normal"` scenario entry. -/
def normal_scenario : ScenarioConfig := ⟨1, 1⟩

/-- The `SCENARIOS` dict from `config.py`, as a partial lookup: `none` models
a key absent from the dict (a direct `SCENARIOS[k]` on it raises `KeyError`). -/
def SCENARIOS : String → Option ScenarioConfig := fun s =>
  if s = "normal" then some normal_scenario
  else if s = "rush_hour" then some ⟨5/2, 1⟩
  else if s = "rainstorm" then some ⟨6/5, 9/5⟩
  else if s = "concert_night" then some ⟨3, 1⟩
  else none

/-- `REVENUE_TARGET_HOURLY = 50000` from `config.py`. -/
def REVENUE_TARGET_HOURLY : ℚ := 50000

/-! ## Road model (`traffic_simulator.py`, class `Road`)

A `Road`'s mutable state is its `current_vehicles` counter; the road
functions below take that counter explicitly. -/

/-- `Road.calculate_travel_time`: BPR volume-delay function
`base_travel_time * (1 + 0.15 * (current_vehicles/capacity)**4) * weather_factor`,
returned through `max(travel_time, base_travel_time)`.  The quotient
`current_vehicles / capacity` is used raw (not clamped). -/
def calculate_travel_time (cfg : RoadConfig) (current_vehicles : ℤ)
    (weather_factor : ℚ) : ℚ :=
  let congestion_factor : ℚ :=
    1 + (3/20) * ((current_vehicles : ℚ) / cfg.capacity) ^ 4
  max (cfg.base_travel_time * congestion_factor * weather_factor)
    cfg.base_travel_time

/-- `Road.add_vehicle`: `current_vehicles += 1`. -/
def add_vehicle (current_vehicles : ℤ) : ℤ := current_vehicles + 1

/-- `Road.remove_vehicle`: `current_vehicles = max(0, current_vehicles - 1)`. -/
def remove_vehicle (current_vehicles : ℤ) : ℤ := max 0 (current_vehicles - 1)

/-- `Road.get_congestion_level`: `min(1.0, current_vehicles / capacity)`. -/
def get_congestion_level (cfg : RoadConfig) (current_vehicles : ℤ) : ℚ :=
  min 1 ((current_vehicles : ℚ) / cfg.capacity)

/-- A single `add_vehicle` / `remove_vehicle` call on a road. -/
inductive RoadOp where
  | add
  | remove
deriving DecidableEq, Repr

/-- Occupancy of a road after a sequence of `add_vehicle`/`remove_vehicle`
calls, starting from the initial `current_vehicles = 0`. -/
def run_road_ops (ops : List RoadOp) : ℤ :=
  ops.foldl
    (fun occ op =>
      match op with
      | .add => add_vehicle occ
      | .remove => remove_vehicle occ)
    0

/-! ## Toll update (`TrafficSimulator.update_toll_price`) -/

/-- `TrafficSimulator.update_toll_price`: the proposed price is first clamped
to the relative window `[toll_price - max_change, toll_price + max_change]`
with `max_change = toll_price * max_change_percent`, and that result is then
clamped to the absolute bounds `[min_price, max_price]`.  The simulator calls
this with `cfg = TOLL_CONFIG` and its current `self.toll_price`. -/
def update_toll_price (cfg : TollConfig) (toll_price : ℚ) (new_price : ℚ) : ℚ :=
  let max_change := toll_price * cfg.max_change_percent
  let relative_clamped :=
    max (toll_price - max_change) (min (toll_price + max_change) new_price)
  max cfg.min_price (min cfg.max_price relative_clamped)

/-! ## Rule-based pricing (`src/simulator/simple_pricing_model.py`) -/

/-- The congestion-tier factor of
`SimplePricingModel.get_price_recommendation`: the first `if/elif/else`
chain on `state["tunnel_congestion"]`. -/
def congestion_price_multiplier (tunnel_congestion : ℚ) : ℚ :=
  if tunnel_congestion > 8/10 then 3/2
  else if tunnel_congestion < 3/10 then 8/10
  else 1

/-- The revenue factor of `get_price_recommendation`, as a function of
`revenue_ratio = hourly_revenue / REVENUE_TARGET_HOURLY`. -/
def revenue_price_multiplier (revenue_over_target : ℚ) : ℚ :=
  if revenue_over_target < 7/10 then 12/10
  else if revenue_over_target > 13/10 then 9/10
  else 1

/-- The time-of-day factor of `get_price_recommendation`.  The night branch
translates Python's chained comparison `22 <= hour <= 6` literally:
`22 ≤ hour ∧ hour ≤ 6`. -/
def time_of_day_multiplier (hour : ℕ) : ℚ :=
  if (7 ≤ hour ∧ hour ≤ 9) ∨ (17 ≤ hour ∧ hour ≤ 19) then 13/10
  else if 22 ≤ hour ∧ hour ≤ 6 then 7/10
  else 1

/-- The fields of the engine state dict consumed by
`SimplePricingModel.get_price_recommendation`. -/
structure PricingState where
  tunnel_congestion : ℚ
  hourly_revenue : ℚ
  time_of_day : ℕ
deriving Repr

/-- `SimplePricingModel.get_price_recommendation`: the three multipliers
compound multiplicatively onto `base_price = TOLL_CONFIG.base_price`, and the
product is clamped to `[min_price, max_price]`. -/
def get_price_recommendation (state : PricingState) : ℚ :=
  let price_multiplier :=
    congestion_price_multiplier state.tunnel_congestion
      * revenue_price_multiplier (state.hourly_revenue / REVENUE_TARGET_HOURLY)
      * time_of_day_multiplier state.time_of_day
  let new_price := TOLL_CONFIG.base_price * price_multiplier
  max TOLL_CONFIG.min_price (min TOLL_CONFIG.max_price new_price)

/-! ## Route choice (`TrafficSimulator.route_choice_model`)

The generalized costs are exact rationals; `math.exp` is modelled by
`Real.exp`, so probabilities live in `ℝ`.  The uniform draw
`random.random()` is an explicit input `rand`. -/

/-- The `routes` dict of generalized costs: the tunnel costs
`toll_price + travel_time * value_of_time`, each free road costs
`travel_time * value_of_time`. -/
def generalized_cost (roads : RoadName → ℤ)
    (toll_price value_of_time weather_factor : ℚ) : RoadName → ℚ
  | .tai_lam_tunnel =>
      toll_price + calculate_travel_time (ROADS .tai_lam_tunnel)
        (roads .tai_lam_tunnel) weather_factor * value_of_time
  | .tuen_mun_road =>
      calculate_travel_time (ROADS .tuen_mun_road)
        (roads .tuen_mun_road) weather_factor * value_of_time
  | .nt_circular_road =>
      calculate_travel_time (ROADS .nt_circular_road)
        (roads .nt_circular_road) weather_factor * value_of_time

/-- `exp_utilities[route] = math.exp(-cost * route_preference)`. -/
noncomputable def exp_utility (costs : RoadName → ℚ) (route_preference : ℚ)
    (r : RoadName) : ℝ :=
  Real.exp ((-(costs r) * route_preference : ℚ))

/-- `total_exp = sum(exp_utilities.values())`, in dict insertion order. -/
noncomputable def total_exp (costs : RoadName → ℚ) (route_preference : ℚ) : ℝ :=
  exp_utility costs route_preference .tai_lam_tunnel
    + exp_utility costs route_preference .tuen_mun_road
    + exp_utility costs route_preference .nt_circular_road

/-- `probabilities[route] = exp_utilities[route] / total_exp`. -/
noncomputable def route_probability (costs : RoadName → ℚ)
    (route_preference : ℚ) (r : RoadName) : ℝ :=
  exp_utility costs route_preference r / total_exp costs route_preference

/-- The final selection loop of `route_choice_model`: walk the roads in dict
insertion order accumulating probability, return the first road whose
cumulative probability meets the draw (`rand <= cumulative`), and fall back
to `"tuen_mun_road"` when no road was selected. -/
noncomputable def route_choice_model (costs : RoadName → ℚ)
    (route_preference : ℚ) (rand : ℝ) : RoadName :=
  if rand ≤ route_probability costs route_preference .tai_lam_tunnel then
    .tai_lam_tunnel
  else if rand ≤ route_probability costs route_preference .tai_lam_tunnel
      + route_probability costs route_preference .tuen_mun_road then
    .tuen_mun_road
  else if rand ≤ route_probability costs route_preference .tai_lam_tunnel
      + route_probability costs route_preference .tuen_mun_road
      + route_probability costs route_preference .nt_circular_road then
    .nt_circular_road
  else .tuen_mun_road

/-! ## Demand (`TrafficSimulator.generate_demand`) -/

/-- `TrafficSimulator._get_base_demand`: the fixed hourly demand table
(`demand_pattern.get(hour, 100)`). -/
def get_base_demand (hour : ℕ) : ℕ :=
  match hour with
  | 0 => 50
  | 1 => 30
  | 2 => 20
  | 3 => 15
  | 4 => 25
  | 5 => 80
  | 6 => 200
  | 7 => 350
  | 8 => 400
  | 9 => 250
  | 10 => 180
  | 11 => 200
  | 12 => 220
  | 13 => 200
  | 14 => 180
  | 15 => 200
  | 16 => 280
  | 17 => 380
  | 18 => 420
  | 19 => 300
  | 20 => 200
  | 21 => 150
  | 22 => 120
  | 23 => 80
  | _ => 100

/-- Python `int(...)` truncation toward zero on a rational. -/
def pyInt (q : ℚ) : ℤ := if 0 ≤ q then ⌊q⌋ else ⌈q⌉

/-- `TrafficSimulator.generate_demand`: the scenario is looked up with
`SCENARIOS.get(scenario, SCENARIOS["normal"])` (a missing key silently falls
back to the `"normal"` entry); the Poisson noise draw
`np.random.poisson(demand * 0.1)` is an explicit nondeterministic input.
Returns `max(0, demand + noise)`. -/
def generate_demand (scenario : String) (time_of_day : ℕ)
    (poisson_noise : ℕ) : ℤ :=
  let base_demand := get_base_demand time_of_day
  let scenario_config := (SCENARIOS scenario).getD normal_scenario
  let demand := pyInt ((base_demand : ℚ) * scenario_config.demand_multiplier)
  max 0 (demand + (poisson_noise : ℤ))

/-! ## Engine state (`TrafficSimulator`) -/

/-- The `Vehicle` dataclass.  The `id`, `origin` and `destination` labels are
informational only (never read by the engine's dynamics) and are omitted;
times are simulated minutes. -/
structure Vehicle where
  departure_time : ℚ
  route_preference : ℚ
  value_of_time : ℚ
deriving Repr

/-- The per-road entry of a traffic snapshot. -/
structure RoadSnapshot where
  vehicles : ℤ
  congestion : ℚ
  travel_time : ℚ
deriving Repr

/-- The `traffic_snapshot` dict appended to `self.traffic_data` each step. -/
structure Snapshot where
  timestamp : ℚ
  scenario : String
  toll_price : ℚ
  revenue : ℚ
  roads : RoadName → RoadSnapshot

/-- The mutable state of `TrafficSimulator`: per-road occupancy, the active
vehicle list `self.vehicles` (each paired with its chosen route), the clock,
the toll price, cumulative revenue and the snapshot history. -/
structure SimulatorState where
  roads : RoadName → ℤ
  vehicles : List (Vehicle × RoadName)
  current_time : ℚ
  toll_price : ℚ
  revenue : ℚ
  traffic_data : List Snapshot

/-- `TrafficSimulator.__init__`, with `datetime.now()` passed explicitly. -/
def init_state (now : ℚ) : SimulatorState :=
  { roads := fun _ => 0
    vehicles := []
    current_time := now
    toll_price := TOLL_CONFIG.base_price
    revenue := 0
    traffic_data := [] }

/-- `TrafficSimulator.reset_simulation`: reassigns every field exactly as
`__init__` does (fresh roads, empty vehicle list, clock to `datetime.now()`,
base toll, zero revenue, empty history). -/
def reset_simulation (_s : SimulatorState) (now : ℚ) : SimulatorState :=
  init_state now

/-- Pointwise update of one road's occupancy counter. -/
def updateRoad (roads : RoadName → ℤ) (r : RoadName) (f : ℤ → ℤ) :
    RoadName → ℤ :=
  fun r2 => if r2 = r then f (roads r2) else roads r2

/-- The nondeterministic inputs consumed for one new vehicle in
`simulate_step`: the two random attribute draws of `create_vehicle` and the
road returned for it by `route_choice_model` (whose uniform draw is internal;
the function always returns one of the three road names, its
`"tuen_mun_road"` fallback included, so its outcome is modelled as a drawn
`RoadName`).  The number of new vehicles, `np.random.poisson(minute_demand)`,
is the length of the list of such draws. -/
structure NewVehicleDraw where
  route_preference : ℚ
  value_of_time : ℚ
  chosen_route : RoadName
deriving Repr

/-- The new-vehicle loop of `simulate_step`: each new vehicle departs at the
current clock, is added to its chosen road, adds the toll to revenue when the
chosen road is the tunnel, and is appended with its route to `self.vehicles`. -/
def generate_phase (newcomers : List NewVehicleDraw) (s : SimulatorState) :
    SimulatorState :=
  newcomers.foldl
    (fun st d =>
      { st with
        roads := updateRoad st.roads d.chosen_route add_vehicle
        revenue := st.revenue +
          (if d.chosen_route = RoadName.tai_lam_tunnel then st.toll_price else 0)
        vehicles := st.vehicles ++
          [({ departure_time := st.current_time
              route_preference := d.route_preference
              value_of_time := d.value_of_time }, d.chosen_route)] })
    s

/-- First half of the completion check of `simulate_step`: walk
`self.vehicles` carrying the index `i`, recompute each vehicle's route travel
time from the road's current (mid-loop) occupancy and the scenario weather
factor, and on completion (`elapsed_seconds >= travel_time * 60`, with the
elapsed simulated time in minutes scaled by 60) remove the vehicle from its
road at once and record its index in `completed_vehicles`.  The road-decrement
function is a parameter so the code's `remove_vehicle` and the unclamped
plain decrement share one definition. -/
def check_completed_gen (rmv : ℤ → ℤ) (weather_factor now : ℚ)
    (roads : RoadName → ℤ) (i : ℕ) :
    List (Vehicle × RoadName) → (RoadName → ℤ) × List ℕ
  | [] => (roads, [])
  | (vehicle, route) :: rest =>
    if (now - vehicle.departure_time) * 60 ≥
        calculate_travel_time (ROADS route) (roads route) weather_factor * 60 then
      ((check_completed_gen rmv weather_factor now
          (updateRoad roads route rmv) (i + 1) rest).1,
        i :: (check_completed_gen rmv weather_factor now
          (updateRoad roads route rmv) (i + 1) rest).2)
    else
      check_completed_gen rmv weather_factor now roads (i + 1) rest

/-- The completion check as the code runs it, with `Road.remove_vehicle`. -/
def check_completed (weather_factor now : ℚ) (roads : RoadName → ℤ) (i : ℕ)
    (vs : List (Vehicle × RoadName)) : (RoadName → ℤ) × List ℕ :=
  check_completed_gen remove_vehicle weather_factor now roads i vs

/-- Second half of the completion check:
`for i in reversed(completed_vehicles): self.vehicles.pop(i)`. -/
def pop_completed (vehicles : List (Vehicle × RoadName)) (completed : List ℕ) :
    List (Vehicle × RoadName) :=
  completed.reverse.foldl (fun vs i => vs.eraseIdx i) vehicles

/-- Modelled from the spec (§4.4 step 3), as a one-pass reference
formulation of the completion check: thread the road occupancies through the
vehicle list, dropping each completed vehicle and keeping the rest.  Proved
equivalent to the code's two-phase (collect indices, then pop in reverse)
formulation. -/
def remove_completed_spec (weather_factor now : ℚ) (roads : RoadName → ℤ) :
    List (Vehicle × RoadName) → (RoadName → ℤ) × List (Vehicle × RoadName)
  | [] => (roads, [])
  | (vehicle, route) :: rest =>
    if (now - vehicle.departure_time) * 60 ≥
        calculate_travel_time (ROADS route) (roads route) weather_factor * 60 then
      remove_completed_spec weather_factor now
        (updateRoad roads route remove_vehicle) rest
    else
      ((remove_completed_spec weather_factor now roads rest).1,
        (vehicle, route) ::
          (remove_completed_spec weather_factor now roads rest).2)

/-- `TrafficSimulator.simulate_step(scenario)`.  A raised `KeyError` is
`Except.error ()`.  The Python body indexes `SCENARIOS[scenario]` inside
`route_choice_model` (once per new vehicle), inside the completion loop (once
per active vehicle) and unconditionally in the snapshot construction, so with
an unknown scenario every control path raises `KeyError` before
`traffic_data.append` runs; the embedding hoists that single failing lookup
to the front (the partially-mutated state an exception would leave behind is
not observable through `Except`). -/
def simulate_step (scenario : String) (newcomers : List NewVehicleDraw)
    (s : SimulatorState) : Except Unit SimulatorState :=
  match SCENARIOS scenario with
  | none => Except.error ()
  | some scenario_config =>
    let w := scenario_config.weather_factor
    let s1 := generate_phase newcomers s
    let res := check_completed w s1.current_time s1.roads 0 s1.vehicles
    let snap : Snapshot :=
      { timestamp := s1.current_time
        scenario := scenario
        toll_price := s1.toll_price
        revenue := s1.revenue
        roads := fun r =>
          { vehicles := res.1 r
            congestion := get_congestion_level (ROADS r) (res.1 r)
            travel_time := calculate_travel_time (ROADS r) (res.1 r) w } }
    Except.ok
      { roads := res.1
        vehicles := pop_completed s1.vehicles res.2
        current_time := s1.current_time + 1
        toll_price := s1.toll_price
        revenue := s1.revenue
        traffic_data := s1.traffic_data ++ [snap] }

/-- Number of active vehicles of `vs` whose chosen route is `r`. -/
def count_on (r : RoadName) (vs : List (Vehicle × RoadName)) : ℕ :=
  (vs.filter (fun p => decide (p.2 = r))).length

/-- Engine states reachable by engine-driven operation: a fresh (or reset)
engine followed by any sequence of successful `simulate_step` calls and
`update_toll_price` calls. -/
inductive Reachable : SimulatorState → Prop where
  | init (now : ℚ) : Reachable (init_state now)
  | step {s s' : SimulatorState} (scenario : String)
      (newcomers : List NewVehicleDraw) :
      Reachable s → simulate_step scenario newcomers s = Except.ok s' →
      Reachable s'
  | toll {s : SimulatorState} (proposed : ℚ) :
      Reachable s →
      Reachable
        { s with toll_price := update_toll_price TOLL_CONFIG s.toll_price proposed }

/-! ## Helper lemmas -/

/-- Unfolding equation for `calculate_travel_time`. -/
theorem calculate_travel_time_def (cfg : RoadConfig) (occ : ℤ) (w : ℚ) :
    calculate_travel_time cfg occ w =
      max (cfg.base_travel_time * (1 + (3/20) * ((occ : ℚ) / cfg.capacity) ^ 4) * w)
        cfg.base_travel_time := rfl

/-- Folding road operations over a nonnegative occupancy keeps it nonnegative. -/
theorem foldl_road_ops_nonneg (ops : List RoadOp) (occ : ℤ) (h : 0 ≤ occ) :
    0 ≤ ops.foldl
      (fun occ op =>
        match op with
        | RoadOp.add => add_vehicle occ
        | RoadOp.remove => remove_vehicle occ)
      occ := by
  induction ops generalizing occ with
  | nil => simpa using h
  | cons op rest ih =>
    cases op
    · exact ih _ (by simp only [add_vehicle]; omega)
    · exact ih _ (le_max_left _ _)

/-- Starting the completion walk at index `i + 1` shifts every recorded
index by one and leaves the road updates unchanged. -/
theorem check_completed_gen_succ (rmv : ℤ → ℤ) (w now : ℚ)
    (vs : List (Vehicle × RoadName)) (roads : RoadName → ℤ) (i : ℕ) :
    check_completed_gen rmv w now roads (i + 1) vs =
      ((check_completed_gen rmv w now roads i vs).1,
        (check_completed_gen rmv w now roads i vs).2.map (· + 1)) := by
  induction vs generalizing roads i with
  | nil => rfl
  | cons vr rest ih =>
    obtain ⟨v, r⟩ := vr
    simp only [check_completed_gen]
    split_ifs with h
    · rw [ih (updateRoad roads r rmv) (i + 1)]
      simp
    · exact ih roads (i + 1)

/-- The roads produced by the index-collecting walk agree with the one-pass
reference formulation. -/
theorem check_completed_fst_eq_spec (w now : ℚ)
    (vs : List (Vehicle × RoadName)) (roads : RoadName → ℤ) (i : ℕ) :
    (check_completed_gen remove_vehicle w now roads i vs).1 =
      (remove_completed_spec w now roads vs).1 := by
  induction vs generalizing roads i with
  | nil => rfl
  | cons vr rest ih =>
    obtain ⟨v, r⟩ := vr
    simp only [check_completed_gen, remove_completed_spec]
    split_ifs with h
    · exact ih _ _
    · exact ih _ _

/-- Popping a list of successor indices from `x :: l` never touches `x`. -/
theorem foldl_eraseIdx_map_succ {α : Type} (x : α) (l : List α) (js : List ℕ) :
    (js.map (· + 1)).foldl (fun vs i => vs.eraseIdx i) (x :: l) =
      x :: js.foldl (fun vs i => vs.eraseIdx i) l := by
  induction js generalizing l with
  | nil => rfl
  | cons j rest ih =>
    simp only [List.map_cons, List.foldl_cons, List.eraseIdx_cons_succ]
    exact ih (l.eraseIdx j)

/-- `pop_completed` on shifted indices keeps the head vehicle. -/
theorem pop_completed_map_succ (x : Vehicle × RoadName)
    (l : List (Vehicle × RoadName)) (js : List ℕ) :
    pop_completed (x :: l) (js.map (· + 1)) = x :: pop_completed l js := by
  unfold pop_completed
  rw [← List.map_reverse]
  exact foldl_eraseIdx_map_succ x l js.reverse

/-- The code's two-phase removal (collect completed indices while decrementing
roads, then pop the indices in reverse) produces exactly the kept-vehicle
list of the one-pass reference formulation. -/
theorem pop_check_eq_spec (w now : ℚ) (vs : List (Vehicle × RoadName))
    (roads : RoadName → ℤ) :
    pop_completed vs (check_completed_gen remove_vehicle w now roads 0 vs).2 =
      (remove_completed_spec w now roads vs).2 := by
  induction vs generalizing roads with
  | nil => rfl
  | cons vr rest ih =>
    obtain ⟨v, r⟩ := vr
    simp only [check_completed_gen, remove_completed_spec]
    split_ifs with h
    · rw [check_completed_gen_succ]
      unfold pop_completed
      rw [List.reverse_cons, List.foldl_append, ← List.map_reverse,
        foldl_eraseIdx_map_succ]
      simp only [List.foldl_cons, List.foldl_nil, List.eraseIdx_cons_zero]
      exact ih _
    · rw [check_completed_gen_succ, pop_completed_map_succ, ih roads]

/-- Membership of shifted indices. -/
theorem mem_map_add_one (i : ℕ) (l : List ℕ) :
    i + 1 ∈ l.map (· + 1) ↔ i ∈ l := by
  rw [List.mem_map]
  constructor
  · rintro ⟨a, ha, hEq⟩
    obtain rfl : a = i := by omega
    exact ha
  · exact fun h => ⟨i, h, rfl⟩

/-- Index `i` is collected by the completion walk exactly when the elapsed
time of the `i`-th vehicle meets the travel time recomputed from the road
occupancies as they stand when the walk reaches it (that is, after the
removals of the completed vehicles before index `i` in this same pass). -/
theorem mem_check_completed_gen (rmv : ℤ → ℤ) (w now : ℚ)
    (vs : List (Vehicle × RoadName)) (roads : RoadName → ℤ) (i : ℕ)
    (hi : i < vs.length) :
    i ∈ (check_completed_gen rmv w now roads 0 vs).2 ↔
      (now - vs[i].1.departure_time) * 60 ≥
        calculate_travel_time (ROADS vs[i].2)
          ((check_completed_gen rmv w now roads 0 (vs.take i)).1 vs[i].2)
          w * 60 := by
  induction vs generalizing roads i with
  | nil => exact absurd hi (by simp)
  | cons vr rest ih =>
    obtain ⟨v, r⟩ := vr
    cases i with
    | zero =>
      simp only [check_completed_gen, List.take_zero, List.getElem_cons_zero]
      split_ifs with h
      · simpa using h
      · rw [check_completed_gen_succ]
        simp only [List.mem_map]
        constructor
        · rintro ⟨a, _, hEq⟩
          omega
        · intro hcond
          exact absurd hcond h
    | succ i =>
      have hi' : i < rest.length := by simpa using hi
      simp only [check_completed_gen, List.take_succ_cons,
        List.getElem_cons_succ]
      split_ifs with h
      · rw [check_completed_gen_succ, check_completed_gen_succ]
        simp only [List.mem_cons, mem_map_add_one]
        rw [ih _ i hi']
        constructor
        · rintro (habs | hmem)
          · exact absurd habs (by omega)
          · exact hmem
        · exact fun hmem => Or.inr hmem
      · rw [check_completed_gen_succ, check_completed_gen_succ,
          mem_map_add_one]
        exact ih _ i hi'

/-- `count_on` over a cons cell. -/
theorem count_on_cons (r rt : RoadName) (v : Vehicle)
    (l : List (Vehicle × RoadName)) :
    count_on r ((v, rt) :: l) = (if rt = r then 1 else 0) + count_on r l := by
  by_cases h : rt = r
  · subst h
    simp [count_on, List.filter_cons]
    omega
  · simp [count_on, List.filter_cons, h]

/-- `count_on` over an appended single vehicle. -/
theorem count_on_snoc (r rt : RoadName) (v : Vehicle)
    (l : List (Vehicle × RoadName)) :
    count_on r (l ++ [(v, rt)]) =
      count_on r l + (if rt = r then 1 else 0) := by
  by_cases h : rt = r <;>
    simp [count_on, List.filter_append, List.filter_cons, h]

/-- The three per-road vehicle counts partition the active-vehicle list. -/
theorem count_on_total (l : List (Vehicle × RoadName)) :
    count_on RoadName.tai_lam_tunnel l + count_on RoadName.tuen_mun_road l
      + count_on RoadName.nt_circular_road l = l.length := by
  induction l with
  | nil => rfl
  | cons vr rest ih =>
    obtain ⟨v, rt⟩ := vr
    rw [count_on_cons, count_on_cons, count_on_cons]
    cases rt <;> simp <;> omega

/-- The new-vehicle loop keeps every road's occupancy equal to the number of
active vehicles routed over it. -/
theorem generate_phase_aligned (newcomers : List NewVehicleDraw)
    (s : SimulatorState)
    (h : ∀ r, s.roads r = (count_on r s.vehicles : ℤ)) :
    ∀ r, (generate_phase newcomers s).roads r =
      (count_on r (generate_phase newcomers s).vehicles : ℤ) := by
  induction newcomers generalizing s with
  | nil => exact h
  | cons d rest ih =>
    simp only [generate_phase, List.foldl_cons]
    refine ih _ (fun r => ?_)
    simp only [updateRoad]
    rw [count_on_snoc]
    by_cases hr : r = d.chosen_route
    · rw [if_pos hr, if_pos (hr.symm)]
      simp only [add_vehicle, h r]
      push_cast
      ring
    · rw [if_neg hr, if_neg (fun hEq => hr hEq.symm)]
      simp [h r]

/-- Occupancy bookkeeping of the one-pass removal: when every road holds at
least as many vehicles as remain listed on it, the final occupancy of a road
is its initial occupancy minus the vehicles of that road that were removed. -/
theorem remove_completed_spec_aligned (w now : ℚ)
    (vs : List (Vehicle × RoadName)) (roads : RoadName → ℤ)
    (h : ∀ r, (count_on r vs : ℤ) ≤ roads r) (r : RoadName) :
    (remove_completed_spec w now roads vs).1 r =
      roads r - (count_on r vs : ℤ) +
        (count_on r (remove_completed_spec w now roads vs).2 : ℤ) := by
  induction vs generalizing roads with
  | nil => simp [remove_completed_spec, count_on]
  | cons vr rest ih =>
    obtain ⟨v, rt⟩ := vr
    have hpos : (1 : ℤ) ≤ roads rt := by
      have hh := h rt
      rw [count_on_cons] at hh
      simp only [if_pos rfl] at hh
      push_cast at hh
      omega
    simp only [remove_completed_spec]
    split_ifs with hc
    · have hrest : ∀ r2, (count_on r2 rest : ℤ) ≤
          updateRoad roads rt remove_vehicle r2 := by
        intro r2
        simp only [updateRoad, remove_vehicle]
        by_cases h2 : r2 = rt
        · subst h2
          rw [if_pos rfl]
          have hh := h r2
          rw [count_on_cons] at hh
          simp only [if_pos rfl] at hh
          push_cast at hh ⊢
          omega
        · rw [if_neg h2]
          have hh := h r2
          rw [count_on_cons] at hh
          rw [if_neg (fun hEq => h2 hEq.symm)] at hh
          push_cast at hh ⊢
          omega
      rw [ih _ hrest, count_on_cons]
      by_cases h2 : r = rt
      · subst h2
        simp only [updateRoad, remove_vehicle, if_pos rfl]
        push_cast
        omega
      · have h3 : rt ≠ r := fun hEq => h2 hEq.symm
        simp only [updateRoad, remove_vehicle, if_neg h2, if_neg h3]
        push_cast
        omega
    · have hrest : ∀ r2, (count_on r2 rest : ℤ) ≤ roads r2 := by
        intro r2
        have hh := h r2
        rw [count_on_cons] at hh
        split_ifs at hh <;> push_cast at hh ⊢ <;> omega
      rw [ih _ hrest, count_on_cons, count_on_cons]
      by_cases h2 : rt = r <;> push_cast <;> omega

/-- When every road holds at least as many vehicles as remain listed on it,
every `remove_vehicle` performed by the completion walk acts on a positive
occupancy, so the walk coincides with the variant whose road decrement is the
unclamped `n - 1`. -/
theorem check_completed_unclamped_eq (w now : ℚ)
    (vs : List (Vehicle × RoadName)) (roads : RoadName → ℤ) (i : ℕ)
    (h : ∀ r, (count_on r vs : ℤ) ≤ roads r) :
    check_completed_gen (fun n => n - 1) w now roads i vs =
      check_completed_gen remove_vehicle w now roads i vs := by
  induction vs generalizing roads i with
  | nil => rfl
  | cons vr rest ih =>
    obtain ⟨v, rt⟩ := vr
    have hpos : (1 : ℤ) ≤ roads rt := by
      have hh := h rt
      rw [count_on_cons] at hh
      simp only [if_pos rfl] at hh
      push_cast at hh
      omega
    simp only [check_completed_gen]
    split_ifs with hc
    · have hupd : updateRoad roads rt (fun n => n - 1) =
          updateRoad roads rt remove_vehicle := by
        funext r2
        simp only [updateRoad, remove_vehicle]
        by_cases h2 : r2 = rt
        · subst h2
          rw [if_pos rfl, if_pos rfl]
          omega
        · rw [if_neg h2, if_neg h2]
      have hrest : ∀ r2, (count_on r2 rest : ℤ) ≤
          updateRoad roads rt remove_vehicle r2 := by
        intro r2
        simp only [updateRoad, remove_vehicle]
        by_cases h2 : r2 = rt
        · subst h2
          rw [if_pos rfl]
          have hh := h r2
          rw [count_on_cons] at hh
          simp only [if_pos rfl] at hh
          push_cast at hh ⊢
          omega
        · rw [if_neg h2]
          have hh := h r2
          rw [count_on_cons] at hh
          rw [if_neg (fun hEq => h2 hEq.symm)] at hh
          push_cast at hh ⊢
          omega
      rw [hupd, ih _ _ hrest]
    · refine ih roads (i + 1) (fun r2 => ?_)
      have hh := h r2
      rw [count_on_cons] at hh
      split_ifs at hh <;> push_cast at hh ⊢ <;> omega

/-- Every reachable engine state keeps each road's occupancy equal to the
number of active vehicles routed over it. -/
theorem reachable_aligned {s : SimulatorState} (h : Reachable s) :
    ∀ r, s.roads r = (count_on r s.vehicles : ℤ) := by
  induction h with
  | init now => intro r; simp [init_state, count_on]
  | toll proposed hs ih => exact ih
  | @step s s' scenario newcomers hs hstep ih =>
    cases hsc : SCENARIOS scenario with
    | none =>
      simp only [simulate_step, hsc] at hstep
      exact Except.noConfusion hstep
    | some sc =>
      simp only [simulate_step, hsc] at hstep
      have hrec := Except.ok.inj hstep
      subst hrec
      intro r
      simp only
      have h1 : ∀ r2, (generate_phase newcomers s).roads r2 =
          (count_on r2 (generate_phase newcomers s).vehicles : ℤ) :=
        generate_phase_aligned newcomers s ih
      rw [check_completed, check_completed_fst_eq_spec, pop_check_eq_spec,
        remove_completed_spec_aligned sc.weather_factor
          (generate_phase newcomers s).current_time
          (generate_phase newcomers s).vehicles
          (generate_phase newcomers s).roads
          (fun r2 => le_of_eq (h1 r2).symm) r,
        h1 r]
      ring

/-! ## Claim theorems -/

/-- C1: `update_toll_price` clamps the proposal first to the relative window
`[toll - toll*max_change_percent, toll + toll*max_change_percent]` and then to
the absolute bounds `[min_price, max_price]`; for a prior price inside
`[min_price, max_price]` the stored price stays inside `[min_price, max_price]`
and moves by at most `max_change_percent` of the prior price; with base `8.0`,
min `5.0`, max `25.0` and 20% maximal change, one `update_toll_price 100` call
yields exactly `9.6 = 48/5`. -/
theorem update_toll_price_clamps (cfg : TollConfig) (toll_price new_price : ℚ)
    (hpct : 0 ≤ cfg.max_change_percent)
    (hmm : cfg.min_price ≤ cfg.max_price)
    (hlo : cfg.min_price ≤ toll_price) (hhi : toll_price ≤ cfg.max_price)
    (hpos : 0 ≤ toll_price) :
    update_toll_price cfg toll_price new_price =
      max cfg.min_price (min cfg.max_price
        (max (toll_price - toll_price * cfg.max_change_percent)
          (min (toll_price + toll_price * cfg.max_change_percent) new_price)))
    ∧ cfg.min_price ≤ update_toll_price cfg toll_price new_price
    ∧ update_toll_price cfg toll_price new_price ≤ cfg.max_price
    ∧ |update_toll_price cfg toll_price new_price - toll_price|
        ≤ toll_price * cfg.max_change_percent
    ∧ update_toll_price ⟨8, 5, 25, 1/5⟩ 8 100 = 48/5 := by
  have hmc : 0 ≤ toll_price * cfg.max_change_percent := mul_nonneg hpos hpct
  refine ⟨rfl, le_max_left _ _, max_le hmm (min_le_left _ _), ?_, by
    norm_num [update_toll_price]⟩
  unfold update_toll_price
  rw [abs_le]
  constructor
  · have h1 : toll_price - toll_price * cfg.max_change_percent ≤
        min cfg.max_price
          (max (toll_price - toll_price * cfg.max_change_percent)
            (min (toll_price + toll_price * cfg.max_change_percent) new_price)) :=
      le_min (by linarith) (le_max_left _ _)
    have h2 := le_max_right cfg.min_price
      (min cfg.max_price
        (max (toll_price - toll_price * cfg.max_change_percent)
          (min (toll_price + toll_price * cfg.max_change_percent) new_price)))
    linarith
  · have h3 : max (toll_price - toll_price * cfg.max_change_percent)
        (min (toll_price + toll_price * cfg.max_change_percent) new_price) ≤
        toll_price + toll_price * cfg.max_change_percent :=
      max_le (by linarith) (min_le_left _ _)
    have h4 := min_le_right cfg.max_price
      (max (toll_price - toll_price * cfg.max_change_percent)
        (min (toll_price + toll_price * cfg.max_change_percent) new_price))
    have h5 : cfg.min_price ≤ toll_price + toll_price * cfg.max_change_percent := by
      linarith
    have h6 := max_le h5 (le_trans h4 h3)
    linarith

/-- C1 witness: the concrete instance of the spec's end-to-end test. -/
theorem update_toll_price_clamps_witness :
    update_toll_price ⟨8, 5, 25, 1/5⟩ 8 100 = 48/5 :=
  (update_toll_price_clamps ⟨8, 5, 25, 1/5⟩ 8 100 (by norm_num) (by norm_num)
    (by norm_num) (by norm_num) (by norm_num)).2.2.2.2

/-- C2: `calculate_travel_time` is the BPR formula
`base * (1 + 0.15 * (occupancy/capacity)^4) * weather` floored at
`base_travel_time`; it is at least `base_travel_time` whenever the weather
factor is at least 1; and because the occupancy/capacity quotient is not
clamped, the travel time is unbounded: past any bound `B` there is an
occupancy above capacity whose travel time exceeds `B`. -/
theorem calculate_travel_time_props (cfg : RoadConfig) (occ : ℤ) (w : ℚ)
    (hocc : 0 ≤ occ) (hcap : 0 < cfg.capacity)
    (hbase : 0 < cfg.base_travel_time) :
    calculate_travel_time cfg occ w =
      max (cfg.base_travel_time * (1 + (3/20) * ((occ : ℚ) / cfg.capacity) ^ 4) * w)
        cfg.base_travel_time
    ∧ (1 ≤ w → cfg.base_travel_time ≤ calculate_travel_time cfg occ w)
    ∧ (1 ≤ w → ∀ B : ℚ, ∃ n : ℤ, cfg.capacity < (n : ℚ) ∧
        B < calculate_travel_time cfg n w) := by
  refine ⟨rfl, fun _ => le_max_right _ _, fun hw B => ?_⟩
  set m : ℤ := max 2 (⌈B * 20 / (3 * cfg.base_travel_time)⌉ + 1) with hm
  have h2 : (2 : ℤ) ≤ m := le_max_left _ _
  have h2q : (2 : ℚ) ≤ (m : ℚ) := by exact_mod_cast h2
  have hceil : cfg.capacity ≤ (⌈cfg.capacity⌉ : ℚ) := Int.le_ceil _
  refine ⟨⌈cfg.capacity⌉ * m, ?_, ?_⟩
  · push_cast
    nlinarith
  · have hx : (m : ℚ) ≤ ((⌈cfg.capacity⌉ * m : ℤ) : ℚ) / cfg.capacity := by
      rw [le_div_iff hcap]
      push_cast
      nlinarith
  -- the quotient dominates m, so its fourth power dominates m as well
    have hx4 : ((m : ℚ)) ^ 4 ≤ (((⌈cfg.capacity⌉ * m : ℤ) : ℚ) / cfg.capacity) ^ 4 :=
      pow_le_pow_left (by linarith) hx 4
    have hm4 : (m : ℚ) ≤ ((m : ℚ)) ^ 4 := le_self_pow (by linarith) (by norm_num)
    have h5 : B * 20 / (3 * cfg.base_travel_time) < (m : ℚ) := by
      have h6 : (⌈B * 20 / (3 * cfg.base_travel_time)⌉ + 1 : ℤ) ≤ m := le_max_right _ _
      have h7 := Int.le_ceil (B * 20 / (3 * cfg.base_travel_time))
      have h6q : ((⌈B * 20 / (3 * cfg.base_travel_time)⌉ : ℚ) + 1) ≤ (m : ℚ) := by
        exact_mod_cast h6
      linarith
    have h8 : B < 3 / 20 * cfg.base_travel_time * (m : ℚ) := by
      rw [div_lt_iff (by positivity)] at h5
      linarith
    rw [calculate_travel_time_def]
    have h9 : cfg.base_travel_time * (1 + (3/20) *
        (((⌈cfg.capacity⌉ * m : ℤ) : ℚ) / cfg.capacity) ^ 4) * w ≤
        max (cfg.base_travel_time * (1 + (3/20) *
          (((⌈cfg.capacity⌉ * m : ℤ) : ℚ) / cfg.capacity) ^ 4) * w)
          cfg.base_travel_time := le_max_left _ _
    have hxm : cfg.base_travel_time * (m : ℚ) ≤
        cfg.base_travel_time * (((⌈cfg.capacity⌉ * m : ℤ) : ℚ) / cfg.capacity) ^ 4 :=
      mul_le_mul_of_nonneg_left (hm4.trans hx4) (le_of_lt hbase)
    have hfac : 0 ≤ cfg.base_travel_time * (1 + (3/20) *
        (((⌈cfg.capacity⌉ * m : ℤ) : ℚ) / cfg.capacity) ^ 4) := by positivity
    have hwfac := mul_nonneg hfac (show (0 : ℚ) ≤ w - 1 by linarith)
    nlinarith [h8, h9, hxm, hwfac, hbase.le]

/-- C2 witness: the tunnel at zero occupancy in clear weather. -/
theorem calculate_travel_time_props_witness :
    (ROADS RoadName.tai_lam_tunnel).base_travel_time ≤
      calculate_travel_time (ROADS RoadName.tai_lam_tunnel) 0 1 :=
  (calculate_travel_time_props (ROADS RoadName.tai_lam_tunnel) 0 1
    (by norm_num) (by norm_num [ROADS]) (by norm_num [ROADS])).2.1 le_rfl

/-- C3: after any sequence of `add_vehicle`/`remove_vehicle` calls starting
from the fresh road, the occupancy is nonnegative and the reported congestion
level lies in `[0, 1]`; `remove_vehicle` at occupancy `0` returns `0` (a
silent no-op, not an error — the function is total). -/
theorem road_ops_invariant (ops : List RoadOp) (cfg : RoadConfig)
    (hcap : 0 < cfg.capacity) :
    0 ≤ run_road_ops ops
    ∧ 0 ≤ get_congestion_level cfg (run_road_ops ops)
    ∧ get_congestion_level cfg (run_road_ops ops) ≤ 1
    ∧ remove_vehicle 0 = 0 := by
  have hocc : 0 ≤ run_road_ops ops := foldl_road_ops_nonneg ops 0 le_rfl
  refine ⟨hocc, ?_, min_le_left _ _, rfl⟩
  unfold get_congestion_level
  exact le_min (by norm_num)
    (div_nonneg (by exact_mod_cast hocc) (le_of_lt hcap))

/-- C3 witness: a lone `remove_vehicle` on the fresh tunnel keeps congestion
in bounds. -/
theorem road_ops_invariant_witness :
    get_congestion_level (ROADS RoadName.tai_lam_tunnel)
      (run_road_ops [RoadOp.remove]) ≤ 1 :=
  (road_ops_invariant [RoadOp.remove] (ROADS RoadName.tai_lam_tunnel)
    (by norm_num [ROADS])).2.2.1

/-- C5 counterexample: at tunnel congestion `0.6` — which is `> 0.5` and
`≤ 0.8` — the code's congestion multiplier is `1.0`, not the `1.2` the claim
states. -/
theorem congestion_multiplier_mid_tier_counterexample :
    (1/2 : ℚ) < 6/10 ∧ (6/10 : ℚ) ≤ 8/10
    ∧ congestion_price_multiplier (6/10) = 1
    ∧ congestion_price_multiplier (6/10) ≠ 12/10 := by
  refine ⟨by norm_num, by norm_num, ?_, ?_⟩ <;>
    norm_num [congestion_price_multiplier]

/-- C5 (amended): the rule-based controller's congestion multiplier is `1.5`
when tunnel congestion is `> 0.8`, `0.8` when it is `< 0.3` (and `≤ 0.8`),
and `1.0` otherwise. -/
theorem congestion_multiplier_tiers (c : ℚ) :
    (8/10 < c → congestion_price_multiplier c = 3/2)
    ∧ (c ≤ 8/10 → c < 3/10 → congestion_price_multiplier c = 8/10)
    ∧ (c ≤ 8/10 → 3/10 ≤ c → congestion_price_multiplier c = 1) := by
  unfold congestion_price_multiplier
  refine ⟨fun h => ?_, fun h1 h2 => ?_, fun h1 h2 => ?_⟩ <;>
    split_ifs <;> first | rfl | linarith

/-- C5 witness: the high-congestion tier at congestion `0.9`. -/
theorem congestion_multiplier_tiers_witness :
    congestion_price_multiplier (9/10) = 3/2 :=
  (congestion_multiplier_tiers (9/10)).1 (by norm_num)

/-- C6: the night-hours branch of the rule-based controller translates
Python's `22 <= hour <= 6`, which no hour of day (indeed no natural number)
satisfies, so the `0.7` night multiplier is unreachable: at hour 23 (night,
outside both rush windows) the time-of-day multiplier is `1.0` and the
recommended price at a neutral state is the unchanged base `30`, where the
claimed night discount would give `30 * 0.7 = 21`. -/
theorem night_discount_unreachable :
    (∀ hour : ℕ, ¬ (22 ≤ hour ∧ hour ≤ 6))
    ∧ time_of_day_multiplier 23 = 1
    ∧ get_price_recommendation ⟨1/2, 50000, 23⟩ = 30
    ∧ TOLL_CONFIG.base_price * (7/10) = 21 := by
  refine ⟨fun hour h => by omega, by norm_num [time_of_day_multiplier], ?_,
    by norm_num [TOLL_CONFIG]⟩
  norm_num [get_price_recommendation, congestion_price_multiplier,
    revenue_price_multiplier, time_of_day_multiplier, REVENUE_TARGET_HOURLY,
    TOLL_CONFIG]

/-- C4: in the per-tick completion check, each active vehicle's travel time
is recomputed from its route's current congestion (the road occupancies as
they stand when the walk reaches the vehicle, after this pass's earlier
removals) and the active scenario's weather factor — no value stored at
departure is consulted — and the vehicle's index is collected (and the
vehicle then popped from the active set, its road decremented) exactly when
the elapsed simulated time since its departure, in seconds, is at least 60
times that recomputed travel time. -/
theorem completion_check_semantics (w now : ℚ) (roads : RoadName → ℤ)
    (vs : List (Vehicle × RoadName)) (i : ℕ) (hi : i < vs.length) :
    (i ∈ (check_completed w now roads 0 vs).2 ↔
      (now - vs[i].1.departure_time) * 60 ≥
        calculate_travel_time (ROADS vs[i].2)
          ((check_completed w now roads 0 (vs.take i)).1 vs[i].2) w * 60)
    ∧ pop_completed vs (check_completed w now roads 0 vs).2 =
        (remove_completed_spec w now roads vs).2 := by
  constructor
  · simpa only [check_completed] using
      mem_check_completed_gen remove_vehicle w now vs roads i hi
  · simpa only [check_completed] using pop_check_eq_spec w now vs roads

/-- C4 witness: one long-departed vehicle on the empty tunnel is collected. -/
theorem completion_check_semantics_witness :
    (0 : ℕ) < 1 ∧
      0 ∈ (check_completed 1 100 (fun _ => 0) 0
        [({ departure_time := 0, route_preference := 0, value_of_time := 0 },
          RoadName.tai_lam_tunnel)]).2 :=
  ⟨by norm_num,
    (completion_check_semantics 1 100 (fun _ => 0)
      [({ departure_time := 0, route_preference := 0, value_of_time := 0 },
        RoadName.tai_lam_tunnel)] 0 (by norm_num)).1.mpr
      (by norm_num [check_completed, check_completed_gen,
        calculate_travel_time, ROADS])⟩

/-- C7: for any engine state and vehicle attributes, the three logit route
probabilities `exp(-cost * sensitivity) / Σ exp(-cost * sensitivity)`
computed over the generalized route costs sum to exactly 1 (the embedding
works in real arithmetic, so the spec's ±1e-9 float tolerance is met
exactly), and whenever the uniform draw exceeds the accumulated probability
of all three roads the cumulative walk selects none of them and the choice
falls back to `tuen_mun_road`, the free non-tolled secondary road. -/
theorem route_probabilities_sum_to_one (roads : RoadName → ℤ)
    (toll_price value_of_time weather_factor route_preference : ℚ)
    (rand : ℝ) :
    route_probability
        (generalized_cost roads toll_price value_of_time weather_factor)
        route_preference RoadName.tai_lam_tunnel
      + route_probability
        (generalized_cost roads toll_price value_of_time weather_factor)
        route_preference RoadName.tuen_mun_road
      + route_probability
        (generalized_cost roads toll_price value_of_time weather_factor)
        route_preference RoadName.nt_circular_road = 1
    ∧ (route_probability
          (generalized_cost roads toll_price value_of_time weather_factor)
          route_preference RoadName.tai_lam_tunnel
        + route_probability
          (generalized_cost roads toll_price value_of_time weather_factor)
          route_preference RoadName.tuen_mun_road
        + route_probability
          (generalized_cost roads toll_price value_of_time weather_factor)
          route_preference RoadName.nt_circular_road < rand →
        route_choice_model
          (generalized_cost roads toll_price value_of_time weather_factor)
          route_preference rand = RoadName.tuen_mun_road) := by
  set costs := generalized_cost roads toll_price value_of_time weather_factor
    with hcosts
  have e1 : 0 < exp_utility costs route_preference RoadName.tai_lam_tunnel :=
    Real.exp_pos _
  have e2 : 0 < exp_utility costs route_preference RoadName.tuen_mun_road :=
    Real.exp_pos _
  have e3 : 0 < exp_utility costs route_preference RoadName.nt_circular_road :=
    Real.exp_pos _
  have ht : 0 < total_exp costs route_preference := add_pos (add_pos e1 e2) e3
  have hsum : route_probability costs route_preference RoadName.tai_lam_tunnel
      + route_probability costs route_preference RoadName.tuen_mun_road
      + route_probability costs route_preference RoadName.nt_circular_road
      = 1 := by
    unfold route_probability
    rw [div_add_div_same, div_add_div_same]
    exact div_self (ne_of_gt ht)
  refine ⟨hsum, fun hlt => ?_⟩
  have hp1 : 0 < route_probability costs route_preference
      RoadName.tai_lam_tunnel := div_pos e1 ht
  have hp2 : 0 < route_probability costs route_preference
      RoadName.tuen_mun_road := div_pos e2 ht
  have hp3 : 0 < route_probability costs route_preference
      RoadName.nt_circular_road := div_pos e3 ht
  unfold route_choice_model
  rw [if_neg (by linarith), if_neg (by linarith), if_neg (by linarith)]

/-- C8: `reset_simulation` wipes the engine to its initial state — zero
occupancy on every road, an empty active-vehicle list, the configured base
toll price, zero cumulative revenue and an empty snapshot history — and a
second consecutive reset reproduces all of those fields identically,
whatever history preceded the first reset. -/
theorem reset_simulation_idempotent (s : SimulatorState) (now1 now2 : ℚ) :
    ((∀ r, (reset_simulation s now1).roads r = 0)
      ∧ (reset_simulation s now1).vehicles = []
      ∧ (reset_simulation s now1).toll_price = TOLL_CONFIG.base_price
      ∧ (reset_simulation s now1).revenue = 0
      ∧ (reset_simulation s now1).traffic_data = [])
    ∧ (reset_simulation (reset_simulation s now1) now2).roads =
        (reset_simulation s now1).roads
    ∧ (reset_simulation (reset_simulation s now1) now2).vehicles =
        (reset_simulation s now1).vehicles
    ∧ (reset_simulation (reset_simulation s now1) now2).toll_price =
        (reset_simulation s now1).toll_price
    ∧ (reset_simulation (reset_simulation s now1) now2).revenue =
        (reset_simulation s now1).revenue
    ∧ (reset_simulation (reset_simulation s now1) now2).traffic_data =
        (reset_simulation s now1).traffic_data :=
  ⟨⟨fun _ => rfl, rfl, rfl, rfl, rfl⟩, rfl, rfl, rfl, rfl, rfl⟩

/-- C9: for a scenario name absent from the `SCENARIOS` table,
`generate_demand` silently computes the demand of the `"normal"` scenario
(its lookup uses `.get` with the `"normal"` entry as default), while
`simulate_step` with the same name raises `KeyError` (its direct
`SCENARIOS[scenario]` indexing) and emits no snapshot. -/
theorem unknown_scenario_semantics (scenario : String)
    (h : SCENARIOS scenario = none) :
    (∀ time_of_day poisson_noise,
        generate_demand scenario time_of_day poisson_noise =
          generate_demand "normal" time_of_day poisson_noise)
    ∧ (∀ newcomers s, simulate_step scenario newcomers s =
        Except.error ()) := by
  constructor
  · intro t p
    have hn : SCENARIOS "normal" = some normal_scenario := rfl
    simp [generate_demand, h, hn]
  · intro newcomers s
    simp [simulate_step, h]

/-- C9 witness: the unknown scenario name `"storm"`. -/
theorem unknown_scenario_semantics_witness :
    generate_demand "storm" 8 0 = generate_demand "normal" 8 0
    ∧ simulate_step "storm" [] (init_state 0) = Except.error () :=
  ⟨(unknown_scenario_semantics "storm" rfl).1 8 0,
    (unknown_scenario_semantics "storm" rfl).2 [] (init_state 0)⟩

/-- C10: in every engine state reachable by engine-driven operation (a fresh
or reset engine followed by successful `simulate_step` and
`update_toll_price` calls), each road's occupancy equals the number of
active vehicles routed over it, so the three occupancies sum to the length
of the active-vehicle list; consequently, in the completion check of any
next `simulate_step` (after its new-vehicle phase, for any weather factor
and clock) every `remove_vehicle` acts on a positive occupancy, and the
`max(0, ·)` clamp never binds: the walk equals its unclamped variant. -/
theorem occupancy_matches_active_vehicles (s : SimulatorState)
    (h : Reachable s) :
    (∀ r, s.roads r = (count_on r s.vehicles : ℤ))
    ∧ s.roads RoadName.tai_lam_tunnel + s.roads RoadName.tuen_mun_road
        + s.roads RoadName.nt_circular_road = (s.vehicles.length : ℤ)
    ∧ (∀ (newcomers : List NewVehicleDraw) (w now : ℚ),
        check_completed_gen (fun n => n - 1) w now
          (generate_phase newcomers s).roads 0
          (generate_phase newcomers s).vehicles =
        check_completed w now (generate_phase newcomers s).roads 0
          (generate_phase newcomers s).vehicles) := by
  have ha := reachable_aligned h
  refine ⟨ha, ?_, ?_⟩
  · rw [ha, ha, ha]
    have htot := count_on_total s.vehicles
    omega
  · intro newcomers w now
    rw [check_completed]
    exact check_completed_unclamped_eq w now _ _ 0
      (fun r => le_of_eq (generate_phase_aligned newcomers s ha r).symm)

/-- C10 witness: the fresh engine. -/
theorem occupancy_matches_active_vehicles_witness :
    (init_state 0).roads RoadName.tai_lam_tunnel
        + (init_state 0).roads RoadName.tuen_mun_road
        + (init_state 0).roads RoadName.nt_circular_road =
      ((init_state 0).vehicles.length : ℤ) :=
  (occupancy_matches_active_vehicles (init_state 0) (Reachable.init 0)).2.1

end TaiLam
